import Mathlib

/-!
Verification development for the Holly Hot Box multi-LLM orchestration layer
(`brain_chat/llm_orchestrator.py`, `brain_chat/query_conductor.py`,
`brain_chat/smart_conductor.py`, `brain_chat/bulletproof_conductor.py`).

The Python code is shallowly embedded: Python `str` is Lean `String`,
Python dynamic values that flow out of `json.loads` are the `Json` type,
Python exceptions are the `PyExc` type and fallible code returns
`Except PyExc _`.  External HTTP interactions of the provider adapters are
an explicit `ProviderBackend` record of oracles; the duck-typed
orchestrator object that the conductors receive in their constructor is
the `OrchIface` record, whose methods may raise (exactly as an injected
stub may in Python).  Wall-clock readings and token counts reported by the
vendors are data supplied by the backend oracle.
-/

namespace HollyHotBox

/-- A Python exception value (only the class and its message matter here). -/
inductive PyExc where
  | nameError (ident : String)
  | keyError (key : String)
  | typeError (msg : String)
  | indexError (msg : String)
  | attributeError (msg : String)
  | jsonDecodeError (msg : String)
  | valueError (msg : String)
  | timeoutError (msg : String)
  | other (msg : String)
deriving DecidableEq, Repr

/-- `str(e)` for an embedded exception. -/
def PyExc.msg : PyExc → String
  | .nameError i => "name " ++ i ++ " is not defined"
  | .keyError k => k
  | .typeError m => m
  | .indexError m => m
  | .attributeError m => m
  | .jsonDecodeError m => m
  | .valueError m => m
  | .timeoutError m => m
  | .other m => m

/-- One `{role, content}` conversation entry. -/
structure Msg where
  role : String
  content : String
deriving DecidableEq, Repr

/-! ### Python string primitives (over `List Char`, mirroring `str` methods) -/

/-- Does `hay` start with `needle`?  (Python `str.startswith`.) -/
def leadsWith : List Char → List Char → Bool
  | [], _ => true
  | _ :: _, [] => false
  | n :: ns, h :: hs => n == h && leadsWith ns hs

/-- Python `needle in hay` (substring containment). -/
def hasSub (needle : List Char) : List Char → Bool
  | [] => leadsWith needle []
  | h :: hs => leadsWith needle (h :: hs) || hasSub needle hs

/-- Python `s.count(c)` for a single character. -/
def countChar (c : Char) : List Char → Nat
  | [] => 0
  | h :: hs => (if h == c then 1 else 0) + countChar c hs

/-- Worker for `splitWs`: `acc` is the reversed word in progress. -/
def splitWsAux : List Char → List Char → List (List Char)
  | acc, [] => if acc.isEmpty then [] else [acc.reverse]
  | acc, c :: cs =>
    if c.isWhitespace then
      if acc.isEmpty then splitWsAux [] cs else acc.reverse :: splitWsAux [] cs
    else splitWsAux (c :: acc) cs

/-- Python `str.split()` (split on whitespace runs, no empty fields). -/
def splitWs (s : List Char) : List (List Char) := splitWsAux [] s

/-- Python `s.startswith(pre)` on `String`. -/
def pyStarts (s pre : String) : Bool := leadsWith pre.data s.data

/-- Python `sub in s` on `String`. -/
def pyIn (sub s : String) : Bool := hasSub sub.data s.data

/-- Python `s.count(c)` on `String`. -/
def pyCount (s : String) (c : Char) : Nat := countChar c s.data

/-- Python `len(s.split())` (whitespace word count). -/
def pyWordCount (s : String) : Nat := (splitWs s.data).length

/-- Python `s.lower()` (the keyword lists under test are ASCII). -/
def pyLower (s : String) : String := ⟨s.data.map Char.toLower⟩

/-- Python `s.strip()` (strip leading and trailing whitespace). -/
def pyStrip (s : String) : String :=
  ⟨(((s.data.dropWhile Char.isWhitespace).reverse.dropWhile Char.isWhitespace).reverse)⟩

/-! ### Dynamic values produced by `json.loads`

JSON numeric literals are modelled as integers; none of the verified
properties involve fractional numbers (a reply whose JSON needs them simply
parses to a failure here, which the code under test absorbs the same way as
any other parse failure). -/

inductive Json where
  | null
  | bool (b : Bool)
  | num (n : Int)
  | str (s : String)
  | arr (xs : List Json)
  | obj (fields : List (String × Json))

/-- Structural equality for `Json` (automatic derivation does not handle the
nested lists in this Lean version). -/
def Json.beq : Json → Json → Bool
  | .null, .null => true
  | .bool a, .bool b => a == b
  | .num a, .num b => a == b
  | .str a, .str b => a == b
  | .arr a, .arr b => beqList a b
  | .obj a, .obj b => beqFields a b
  | _, _ => false
where
  beqList : List Json → List Json → Bool
    | [], [] => true
    | x :: xs, y :: ys => Json.beq x y && beqList xs ys
    | _, _ => false
  beqFields : List (String × Json) → List (String × Json) → Bool
    | [], [] => true
    | (k, v) :: xs, (k', v') :: ys => k == k' && Json.beq v v' && beqFields xs ys
    | _, _ => false

instance : BEq Json := ⟨Json.beq⟩

/-! ### `json.loads`

A recursive-descent parser with explicit fuel.  Numeric literals are
integers (optionally signed); string escapes cover the common
single-character escapes.  Inputs outside this fragment fail to parse,
which the code under test absorbs exactly like any other
`json.JSONDecodeError`. -/

/-- Drop leading JSON whitespace. -/
def skipWs : List Char → List Char
  | [] => []
  | c :: cs => if c.isWhitespace then skipWs cs else c :: cs

/-- Parse the body of a JSON string after the opening quote. -/
def parseStrBody : List Char → List Char → Option (List Char × List Char)
  | _, [] => none
  | acc, '"' :: rest => some (acc.reverse, rest)
  | acc, '\\' :: e :: rest =>
    match e with
    | '"' => parseStrBody ('"' :: acc) rest
    | '\\' => parseStrBody ('\\' :: acc) rest
    | '/' => parseStrBody ('/' :: acc) rest
    | 'n' => parseStrBody ('\n' :: acc) rest
    | 't' => parseStrBody ('\t' :: acc) rest
    | 'r' => parseStrBody ('\r' :: acc) rest
    | _ => none
  | _, '\\' :: [] => none
  | acc, c :: rest => parseStrBody (c :: acc) rest

/-- Parse a run of decimal digits. -/
def parseDigits : Nat → List Char → Option (Nat × List Char)
  | acc, c :: rest =>
    if c.isDigit then
      match parseDigits (acc * 10 + (c.toNat - 48)) rest with
      | some r => some r
      | none => some (acc * 10 + (c.toNat - 48), rest)
    else none
  | _, [] => none

mutual

def parseVal : Nat → List Char → Option (Json × List Char)
  | 0, _ => none
  | Nat.succ fuel, s =>
    match skipWs s with
    | 'n' :: 'u' :: 'l' :: 'l' :: rest => some (.null, rest)
    | 't' :: 'r' :: 'u' :: 'e' :: rest => some (.bool true, rest)
    | 'f' :: 'a' :: 'l' :: 's' :: 'e' :: rest => some (.bool false, rest)
    | '"' :: rest =>
      match parseStrBody [] rest with
      | some (cs, r) => some (.str ⟨cs⟩, r)
      | none => none
    | '[' :: rest =>
      (match skipWs rest with
       | ']' :: r => some (.arr [], r)
       | _ => parseElems fuel [] rest)
    | '\x7b' :: rest =>
      (match skipWs rest with
       | '\x7d' :: r => some (.obj [], r)
       | _ => parseFields fuel [] rest)
    | '-' :: rest =>
      match parseDigits 0 rest with
      | some (n, r) => some (.num (-(n : Int)), r)
      | none => none
    | s' =>
      match parseDigits 0 s' with
      | some (n, r) => some (.num (n : Int), r)
      | none => none

def parseElems : Nat → List Json → List Char → Option (Json × List Char)
  | 0, _, _ => none
  | Nat.succ fuel, acc, s =>
    match parseVal fuel s with
    | none => none
    | some (v, rest) =>
      match skipWs rest with
      | ',' :: r => parseElems fuel (v :: acc) r
      | ']' :: r => some (.arr (v :: acc).reverse, r)
      | _ => none

def parseFields : Nat → List (String × Json) → List Char → Option (Json × List Char)
  | 0, _, _ => none
  | Nat.succ fuel, acc, s =>
    match skipWs s with
    | '"' :: rest =>
      match parseStrBody [] rest with
      | none => none
      | some (k, rest') =>
        match skipWs rest' with
        | ':' :: r =>
          match parseVal fuel r with
          | none => none
          | some (v, rest'') =>
            match skipWs rest'' with
            | ',' :: r' => parseFields fuel ((⟨k⟩, v) :: acc) r'
            | '\x7d' :: r' => some (.obj ((⟨k⟩, v) :: acc).reverse, r')
            | _ => none
        | _ => none
    | _ => none

end

/-- Python `json.loads`: parse, then require only trailing whitespace. -/
def jsonLoads (s : String) : Except PyExc Json :=
  match parseVal (4 * (s.data.length + 1)) s.data with
  | some (v, rest) =>
    if (skipWs rest).isEmpty then .ok v
    else .error (.jsonDecodeError "Extra data")
  | none => .error (.jsonDecodeError "Expecting value")

/-! ### Dynamic-typing semantics of the Python operations applied to
parsed JSON values -/

/-- First binding of `k` in an association list. -/
def lookupField (k : String) : List (String × Json) → Option Json
  | [] => none
  | (k', v) :: fs => if k' == k then some v else lookupField k fs

/-- Python `v[k]` for a string key. -/
def pyGetItem (v : Json) (k : String) : Except PyExc Json :=
  match v with
  | .obj fs =>
    match lookupField k fs with
    | some x => .ok x
    | none => .error (.keyError k)
  | .str _ => .error (.typeError "string indices must be integers")
  | .arr _ => .error (.typeError "list indices must be integers or slices, not str")
  | _ => .error (.typeError "object is not subscriptable")

/-- Python `v.get(k, default)` (only dicts have `.get`). -/
def pyGet (v : Json) (k : String) (dflt : Json) : Except PyExc Json :=
  match v with
  | .obj fs =>
    match lookupField k fs with
    | some x => .ok x
    | none => .ok dflt
  | _ => .error (.attributeError "get")

/-- Python `len(v)`. -/
def pyLen : Json → Except PyExc Nat
  | .arr xs => .ok xs.length
  | .str s => .ok s.data.length
  | .obj fs => .ok fs.length
  | _ => .error (.typeError "object has no len()")

/-- Python `for x in v` (lists yield elements, strings yield 1-character
strings, dicts yield their keys). -/
def pyIter : Json → Except PyExc (List Json)
  | .arr xs => .ok xs
  | .str s => .ok (s.data.map fun c => .str ⟨[c]⟩)
  | .obj fs => .ok (fs.map fun kv => .str kv.1)
  | _ => .error (.typeError "object is not iterable")

/-- Python truthiness of a parsed value. -/
def pyTruthy : Json → Bool
  | .null => false
  | .bool b => b
  | .num n => n != 0
  | .str s => !s.data.isEmpty
  | .arr xs => !xs.isEmpty
  | .obj fs => !fs.isEmpty

/-- Python `v[:n]` (slicing; strings and lists slice, everything else
raises as subscripting does). -/
def pySliceTo (v : Json) (n : Nat) : Except PyExc Json :=
  match v with
  | .str s => .ok (.str ⟨s.data.take n⟩)
  | .arr xs => .ok (.arr (xs.take n))
  | _ => .error (.typeError "object is not subscriptable")

-- Python `str(v)` for a parsed value (`repr`-style for containers; the
-- exact rendering only feeds prompt text handed to the oracle).
mutual

def pyStr : Json → String
  | .null => "None"
  | .bool true => "True"
  | .bool false => "False"
  | .num n => toString n
  | .str s => s
  | .arr xs => "[" ++ pyStrList xs ++ "]"
  | .obj fs => "\x7b" ++ pyStrFields fs ++ "\x7d"

def pyStrList : List Json → String
  | [] => ""
  | [Json.str s] => "\x27" ++ s ++ "\x27"
  | [x] => pyStr x
  | Json.str s :: xs => "\x27" ++ s ++ "\x27, " ++ pyStrList xs
  | x :: xs => pyStr x ++ ", " ++ pyStrList xs

def pyStrFields : List (String × Json) → String
  | [] => ""
  | [(k, Json.str s)] => "\x27" ++ k ++ "\x27: \x27" ++ s ++ "\x27"
  | [(k, v)] => "\x27" ++ k ++ "\x27: " ++ pyStr v
  | (k, Json.str s) :: fs => "\x27" ++ k ++ "\x27: \x27" ++ s ++ "\x27, " ++ pyStrFields fs
  | (k, v) :: fs => "\x27" ++ k ++ "\x27: " ++ pyStr v ++ ", " ++ pyStrFields fs

end

/-- Python `s.upper()`. -/
def pyUpper (s : String) : String := ⟨s.data.map Char.toUpper⟩

/-- Python `sep.join(parts)`. -/
def joinWith (sep : String) : List String → String
  | [] => ""
  | [x] => x
  | x :: xs => x ++ sep ++ joinWith sep xs

/-! ### `brain_chat/llm_orchestrator.py` — the provider adapters

Each adapter wraps one external HTTP/SDK interaction.  The raw interaction
is an oracle in `ProviderBackend`: `.ok` carries the text the vendor
returned together with the latency and token counts the adapter reads off
the wire, `.error` covers every failing outcome the adapter's error
handling collapses into its `"<Provider> Error: ..."` sentinel (exception
raised by the HTTP client, non-200 status, malformed response body, and —
for Claude/Grok/HuggingFace — exhaustion of their model-variant retry
loops).

Python mutability: the adapters (except `query_gemini`, which builds a
fresh list) execute `messages = conversation_history or []` followed by
`messages.append({"role": "user", "content": prompt})`.  When the caller's
history list is non-empty, `messages` aliases it and the append mutates
it in place.  Each adapter therefore returns, besides its `(text,
metadata)` pair, the state of the caller's history list after the call. -/

/-- A metadata dict; keys that may be absent are `Option` fields.  (Keys
the repository writes but never reads anywhere — model-tier labels,
cost-tier tags and the like — are not tracked.) -/
structure Meta where
  error : Option String := none
  error_type : Option String := none
  tokens : Option Nat := none
  reasoning_tokens : Option Nat := none
  response_time_ms : Option Nat := none
  model : Option String := none
  tier : Option String := none
  fallback : Option String := none
  total_tokens : Option Nat := none
  total_response_time_ms : Option Nat := none
  individual_responses_count : Option Nat := none
deriving DecidableEq, Repr

/-- What a successful raw provider interaction yields: the generated text
plus the latency and usage counters the adapter records. -/
structure RawReply where
  text : String
  ms : Nat
  total_tokens : Nat := 0
  reasoning_tokens : Nat := 0
deriving DecidableEq, Repr

/-- The oracle for all external state read by `LLMOrchestrator`: the
API-key/client-initialization flags fixed at construction and the outcome
of each provider's raw call as a function of what is sent to it. -/
structure ProviderBackend where
  gemini_ok : Bool
  openai_key : Bool
  claude_key : Bool
  hf_key : Bool
  geminiCall : String → List Msg → Except PyExc RawReply
  openaiCall : List Msg → Except PyExc RawReply
  claudeCall : List Msg → Except PyExc RawReply
  deepseekCall : List Msg → Except PyExc RawReply
  grokCall : List Msg → Except PyExc RawReply
  hfCall : List Msg → Except PyExc RawReply

/-- The thinking-mode wrapper `query_gemini` puts around the prompt. -/
def gemini_enhanced_prompt (prompt : String) : String :=
  "You are Gemini 2.0 Flash Thinking - Google\x27s most advanced AI with deep reasoning capabilities.\n\n"
    ++ prompt ++
    "\n\nPlease provide a comprehensive, well-reasoned response leveraging your advanced thinking and analysis capabilities."

/-- The fresh Gemini-format history `query_gemini` builds: last 10
messages, roles mapped to user/model, contents as `parts`. -/
def gemini_history (history : List Msg) : List Msg :=
  (history.drop (history.length - 10)).map fun m =>
    { role := if m.role == "user" then "user" else "model", content := m.content }

/-- `LLMOrchestrator.query_gemini`.  Builds a fresh Gemini-format history
— the caller's list is not touched. -/
def query_gemini (be : ProviderBackend) (prompt : String) (history : List Msg) :
    (String × Meta) × List Msg :=
  if !be.gemini_ok then
    (("Gemini is temporarily unavailable", { error := some "Client not initialized" }), history)
  else
    match be.geminiCall (gemini_enhanced_prompt prompt) (gemini_history history) with
    | .ok r =>
      ((r.text,
        { tokens := some (pyWordCount prompt + pyWordCount r.text),
          response_time_ms := some r.ms,
          model := some "gemini-1.5-flash (Tier 3 Premium)",
          tier := some "premium_tier_3" }), history)
    | .error (.timeoutError _) =>
      (("Gemini Error: API call timed out", { error := some "timeout" }), history)
    | .error e =>
      (("Gemini Error: " ++ e.msg, { error := some e.msg }), history)

/-- `LLMOrchestrator.query_openai` (`messages = conversation_history or []`
then `messages.append(...)`: the caller's list gains the prompt entry
whenever it was non-empty). -/
def query_openai (be : ProviderBackend) (prompt : String) (history : List Msg) :
    (String × Meta) × List Msg :=
  if !be.openai_key then
    (("OpenAI is temporarily unavailable", { error := some "API key not found" }), history)
  else
    let messages := history ++ [{ role := "user", content := prompt }]
    let historyAfter := if history.isEmpty then history else messages
    match be.openaiCall messages with
    | .ok r =>
      ((r.text,
        { tokens := some r.total_tokens, response_time_ms := some r.ms,
          model := some "gpt-4o (REST API)" }), historyAfter)
    | .error e =>
      (("OpenAI Error: " ++ e.msg, { error := some e.msg }), historyAfter)

/-- `LLMOrchestrator.query_claude` (default haiku preference; the
model-variant retry loop is one backend outcome, its exhaustion being the
`"All model variants unavailable"` sentinel). -/
def query_claude (be : ProviderBackend) (prompt : String) (history : List Msg) :
    (String × Meta) × List Msg :=
  if !be.claude_key then
    (("Claude is temporarily unavailable", { error := some "API key not found" }), history)
  else
    let messages := history ++ [{ role := "user", content := prompt }]
    let historyAfter := if history.isEmpty then history else messages
    match be.claudeCall messages with
    | .ok r =>
      ((r.text,
        { tokens := some r.total_tokens, response_time_ms := some r.ms,
          model := some "Claude Haiku 3.5 (REST API)" }), historyAfter)
    | .error _ =>
      (("Claude Error: All model variants unavailable",
        { error := some "All Claude models failed" }), historyAfter)

/-- The reasoning-mode wrapper `LLMOrchestrator.query_deepseek` puts
around the prompt (this wrapper — not the bare prompt — is what the
adapter appends to the caller's non-empty history list). -/
def deepseek_reasoning_prompt (prompt : String) : String :=
  "You are DeepSeek-Reasoner (DeepSeek-V3.2-Exp) - a world-class deep thinking AI.\n\nYour specialty is analytical reasoning, step-by-step problem solving, and cost-effective intelligence.\n\nTask: "
    ++ prompt ++
    "\n\nPlease think deeply and provide a well-reasoned, analytical response."

def query_deepseek (be : ProviderBackend) (prompt : String) (history : List Msg) :
    (String × Meta) × List Msg :=
  let messages := history ++ [{ role := "user", content := deepseek_reasoning_prompt prompt }]
  let historyAfter := if history.isEmpty then history else messages
  match be.deepseekCall messages with
  | .ok r =>
    ((r.text,
      { tokens := some r.total_tokens, reasoning_tokens := some r.reasoning_tokens,
        response_time_ms := some r.ms,
        model := some "deepseek-reasoner (V3.2 Deep Think)" }), historyAfter)
  | .error e =>
    (("DeepSeek Error: " ++ e.msg, { error := some e.msg }), historyAfter)

/-- `LLMOrchestrator.query_grok`. -/
def query_grok (be : ProviderBackend) (prompt : String) (history : List Msg) :
    (String × Meta) × List Msg :=
  let messages := history ++ [{ role := "user", content := prompt }]
  let historyAfter := if history.isEmpty then history else messages
  match be.grokCall messages with
  | .ok r =>
    ((r.text,
      { tokens := some r.total_tokens, response_time_ms := some r.ms,
        model := some "Grok (grok-beta)" }), historyAfter)
  | .error _ =>
    (("Grok Error: All model variants unavailable",
      { error := some "All Grok models failed" }), historyAfter)

/-- `LLMOrchestrator.query_huggingface`.  (When every model variant of the
loop raises, the source trips an `UnboundLocalError` on `response` and the
outer handler renders `"Hugging Face Error: ..."`; when variants return
non-200, it renders `"HuggingFace Error: ..."`.  Both sentinels behave
identically in every check performed on them, and the embedding uses the
latter spelling.) -/
def query_huggingface (be : ProviderBackend) (prompt : String) (history : List Msg) :
    (String × Meta) × List Msg :=
  if !be.hf_key then
    (("Hugging Face is temporarily unavailable", { error := some "API key not found" }), history)
  else
    let messages := history ++ [{ role := "user", content := prompt }]
    let historyAfter := if history.isEmpty then history else messages
    match be.hfCall messages with
    | .ok r =>
      ((r.text,
        { tokens := some r.total_tokens, response_time_ms := some r.ms,
          model := some "HuggingFace Model (HuggingFace)" }), historyAfter)
    | .error e =>
      (("HuggingFace Error: " ++ e.msg, { error := some e.msg }), historyAfter)

/-! ### `LLMOrchestrator.orchestrate_response` -/

/-- One slot of the `results` dict of `orchestrate_response`. -/
structure Entry where
  response : String
  metadata : Meta
deriving DecidableEq, Repr

/-- The result dicts `orchestrate_response` can hand back.  `single`
covers the four-key `{mode, response, metadata, provider}` shape shared by
the `gemini_only`, `deepseek_only`, all-models-failed-fallback and
`fastest` returns.  (The `power_duo` return dict in the source is dead
code: the `NameError` on `original_prompt` fires before it, so no
constructor corresponds to it.) -/
inductive OrchResult where
  | single (mode response : String) (metadata : Meta) (provider : String)
  | consensus (final_response : String) (individual_responses : List (String × Entry))
      (metadata : Meta)
  | best (provider response : String) (metadata : Meta)
      (all_responses : List (String × Entry))
  | parallel (results : List (String × Entry))
deriving DecidableEq, Repr

/-- The per-provider try-body of the query loop: the response-validity
check raises `ValueError` (caught by the same `except`, which substitutes
the `"temporarily unavailable"` entry) when the response is empty, starts
with `"Error:"`, or starts with `"<"`. -/
def validateEntry (name : String) (res : String × Meta) : Entry :=
  let response := res.1
  if response.data.isEmpty || pyStarts response "Error:" || pyStarts response "<" then
    { response := name ++ " temporarily unavailable",
      metadata := { error := some (name ++ " returned invalid response (likely HTML error page)"),
                    error_type := some "ValueError" } }
  else
    { response := response, metadata := res.2 }

/-- The `llm_queries` loop in dict order gemini, deepseek, claude, openai,
grok, huggingface.  The adapters run sequentially against the same caller
history list, so each adapter sees the list as mutated by its
predecessors. -/
def runProviderLoop (be : ProviderBackend) (prompt : String) (history : List Msg) :
    List (String × Entry) :=
  let (rg, h1) := query_gemini be prompt history
  let (rd, h2) := query_deepseek be prompt h1
  let (rc, h3) := query_claude be prompt h2
  let (ro, h4) := query_openai be prompt h3
  let (rk, h5) := query_grok be prompt h4
  let (rh, _) := query_huggingface be prompt h5
  [("gemini", validateEntry "gemini" rg),
   ("deepseek", validateEntry "deepseek" rd),
   ("claude", validateEntry "claude" rc),
   ("openai", validateEntry "openai" ro),
   ("grok", validateEntry "grok" rk),
   ("huggingface", validateEntry "huggingface" rh)]

/-- The `successful_responses` comprehension: keep entries that do not
start with `"Error:"` and do not contain `"temporarily unavailable"`. -/
def successfulResponses (results : List (String × Entry)) : List (String × Entry) :=
  results.filter fun kv =>
    !pyStarts kv.2.response "Error:" && !pyIn "temporarily unavailable" kv.2.response

/-- `LLMOrchestrator._build_consensus` (its `try` around the Gemini
synthesis call cannot fire: `query_gemini` converts failures to sentinel
strings instead of raising, so the concatenation fallback is dead code). -/
def build_consensus (be : ProviderBackend) (results : List (String × Entry))
    (original_prompt : String) : OrchResult :=
  let header :=
    "\nYou are Google Gemini 2.0 Flash Thinking - the PRIMARY STRATEGIST leading a team of AI models.\n\nYour role is to synthesize the best insights from all AI responses into a single, comprehensive answer.\n\nPRIORITY: Your own analysis and insights should be weighted HEAVILY as you have the most advanced reasoning.\n\nOriginal Question: "
      ++ original_prompt ++ "\n\nTEAM RESPONSES:\n"
  let blocks := results.foldl (fun acc kv =>
    if kv.1 == "gemini" then
      acc ++ "\n\nYOUR ANALYSIS (GEMINI TIER 3 - PRIMARY WEIGHT):\n" ++ kv.2.response ++ "\n"
    else if kv.1 == "deepseek" then
      acc ++ "\n\nDEEPSEEK REASONER ANALYSIS (DEEP THINKING - HIGH WEIGHT):\n" ++ kv.2.response ++ "\n"
    else
      acc ++ "\n\n" ++ pyUpper kv.1 ++ ":\n" ++ kv.2.response ++ "\n") ""
  let footer :=
    "\n\nINSTRUCTIONS:\n1. Lead with YOUR insights and analysis (Gemini Tier 3)\n2. Give HEAVY WEIGHT to DeepSeek Reasoner\x27s deep analytical thinking\n3. Integrate valuable points from other models\n4. Provide a comprehensive, well-reasoned final answer\n5. Leverage your advanced thinking capabilities to go deeper than the others\n\nFinal synthesized response:"
  let synthesis_prompt := header ++ blocks ++ footer
  let (final_response, metadata0) := (query_gemini be synthesis_prompt []).1
  let total_tokens := results.foldl (fun acc kv => acc + (kv.2.metadata.tokens.getD 0)) 0
  let total_rt := results.foldl (fun acc kv => acc + (kv.2.metadata.response_time_ms.getD 0)) 0
  .consensus final_response results
    { metadata0 with total_tokens := some total_tokens,
                     total_response_time_ms := some total_rt,
                     individual_responses_count := some results.length }

/-- Ordering key of `_get_fastest`: `metadata.get('response_time_ms',
float('inf'))`. -/
def rtLt (a b : Option Nat) : Bool :=
  match a, b with
  | some x, some y => x < y
  | some _, none => true
  | none, _ => false

/-- `LLMOrchestrator._get_fastest` (`min` keeps the first minimum; on an
empty dict `min` raises `ValueError`, a case `orchestrate_response` never
produces). -/
def get_fastest (results : List (String × Entry)) : Except PyExc OrchResult :=
  match results with
  | [] => .error (.valueError "min() arg is an empty sequence")
  | kv :: rest =>
    let fastest := rest.foldl (fun best x =>
      if rtLt x.2.metadata.response_time_ms best.2.metadata.response_time_ms then x else best) kv
    .ok (.single "fastest" fastest.2.response fastest.2.metadata fastest.1)

/-- First binding of `name` among the results. -/
def lookupEntry (name : String) : List (String × Entry) → Option Entry
  | [] => none
  | kv :: rest => if kv.1 == name then some kv.2 else lookupEntry name rest

/-- `LLMOrchestrator._get_best`: ask Gemini to name the best provider,
normalise its reply, fall back to the Gemini entry when the reply names no
known key (a missing `gemini` key — impossible from
`orchestrate_response` — raises `KeyError`). -/
def get_best (be : ProviderBackend) (results : List (String × Entry))
    (original_prompt : String) : Except PyExc OrchResult :=
  let header :=
    "\nYou are Gemini 2.0 Flash Thinking - the most advanced AI evaluator.\n\nAnalyze these AI responses and determine which ONE is the BEST based on:\n- Accuracy and correctness\n- Depth of reasoning\n- Practical usefulness\n- Completeness\n\nBe objective - if YOUR response (gemini) is best, say so. If another model did better, acknowledge it.\n\nOriginal Question: "
      ++ original_prompt ++ "\n\nRESPONSES TO EVALUATE:\n"
  let blocks := results.foldl (fun acc kv =>
    acc ++ "\n\n" ++ pyUpper kv.1 ++ ":\n" ++ kv.2.response ++ "\n") ""
  let footer :=
    "\n\nReply with ONLY the provider name (openai, gemini, claude, deepseek, grok, or huggingface) - nothing else:"
  let evaluation_prompt := header ++ blocks ++ footer
  let raw := ((query_gemini be evaluation_prompt []).1).1
  let best0 := pyLower (pyStrip raw)
  let providers := ["openai", "gemini", "claude", "deepseek", "grok", "huggingface"]
  let best_provider := ((providers.find? fun p => pyIn p best0).getD best0)
  match lookupEntry best_provider results with
  | some e => .ok (.best best_provider e.response e.metadata results)
  | none =>
    match lookupEntry "gemini" results with
    | some e => .ok (.best "gemini" e.response e.metadata results)
    | none => .error (.keyError "gemini")

/-- `LLMOrchestrator.orchestrate_response`.  The `power_duo` branch: after
both provider calls return, Python evaluates the synthesis f-string, whose
`\x7boriginal_prompt\x7d` placeholder names a variable bound nowhere in
the function (its locals are `prompt`, `conversation_history`, `mode`,
`results` and the four response/metadata pairs; no module-level
`original_prompt` exists — the identifier is only ever a *parameter* of
the separate methods `_build_consensus` and `_get_best`).  The branch
therefore raises `NameError` before its return statement. -/
def orchestrate_response (be : ProviderBackend) (prompt : String) (history : List Msg)
    (mode : String) : Except PyExc OrchResult :=
  if mode == "gemini_only" then
    let (r, _) := query_gemini be prompt history
    .ok (.single "gemini_only" r.1 r.2 "gemini")
  else if mode == "deepseek_only" then
    let (r, _) := query_deepseek be prompt history
    .ok (.single "deepseek_only" r.1 r.2 "deepseek")
  else if mode == "power_duo" then
    let (_, h1) := query_gemini be prompt history
    let (_, _) := query_deepseek be prompt h1
    -- f"Original Question: \x7boriginal_prompt\x7d" — undefined name
    .error (.nameError "original_prompt")
  else
    let results := runProviderLoop be prompt history
    if (successfulResponses results).isEmpty then
      .ok (.single mode "All AI models are currently unavailable. Please try again later."
        { error := some "all_models_failed" } "fallback")
    else if mode == "consensus" then
      .ok (build_consensus be results prompt)
    else if mode == "fastest" then
      get_fastest results
    else if mode == "best" then
      get_best be results prompt
    else
      .ok (.parallel results)

/-! ### The duck-typed orchestrator interface

`QueryConductor.__init__` (and the other conductors) store whatever
orchestrator object they are handed; its methods may raise, as an injected
stub's do.  The real `LLMOrchestrator` instantiates the interface below
with methods that never raise (they return sentinel strings instead) — its
`orchestrate_response`, however, can raise the `power_duo` `NameError`. -/

structure OrchIface where
  query_gemini : String → List Msg → Except PyExc (String × Meta)
  query_claude : String → List Msg → Except PyExc (String × Meta)
  query_deepseek : String → List Msg → Except PyExc (String × Meta)
  query_openai : String → List Msg → Except PyExc (String × Meta)
  orchestrate_response : String → List Msg → String → Except PyExc OrchResult

/-- The real `LLMOrchestrator` viewed through the interface.  (The
returned-value view drops the adapters' in-place mutation of the caller's
history list; that effect is stated separately by the frame theorems.) -/
def orchestratorIface (be : ProviderBackend) : OrchIface where
  query_gemini := fun p h => .ok (query_gemini be p h).1
  query_claude := fun p h => .ok (query_claude be p h).1
  query_deepseek := fun p h => .ok (query_deepseek be p h).1
  query_openai := fun p h => .ok (query_openai be p h).1
  orchestrate_response := fun p h m => orchestrate_response be p h m

/-! ### `brain_chat/query_conductor.py` — `QueryConductor` -/

/-- `prompt.count('?') > 1`. -/
def qc_has_multiple_questions (prompt : String) : Bool := pyCount prompt '?' > 1

/-- `len(prompt.split()) > 200`. -/
def qc_has_long_context (prompt : String) : Bool := pyWordCount prompt > 200

/-- The keyword half of the file-reference indicator. -/
def qc_file_kw (prompt : String) : Bool :=
  ["file", "document", "upload", "attached", "case files", "summary", "uploaded",
   "files"].any fun w => pyIn w (pyLower prompt)

/-- `conversation_history and len(conversation_history) > 0 or any(...)`
(truthiness of both `None` and `[]` is false, so only emptiness of the
history matters). -/
def qc_has_file_references (prompt : String) (history : List Msg) : Bool :=
  !history.isEmpty || qc_file_kw prompt

def qc_has_list_request (prompt : String) : Bool :=
  ["list", "enumerate", "identify all", "find all"].any fun w => pyIn w (pyLower prompt)

def qc_has_analysis_request (prompt : String) : Bool :=
  ["analyze", "evaluate", "assess", "compare", "review", "examine"].any fun w =>
    pyIn w (pyLower prompt)

def qc_has_research_request (prompt : String) : Bool :=
  ["research", "find firms", "locate", "search for", "finding",
   "help me by finding"].any fun w => pyIn w (pyLower prompt)

def qc_has_multiple_parts (prompt : String) : Bool :=
  ["1)", "2)", "then", "also", "additionally", "based on"].any fun w =>
    pyIn w (pyLower prompt)

/-- The weighted indicator sum of `analyze_query_complexity`. -/
def qc_score (prompt : String) (history : List Msg) : Nat :=
  (if qc_has_multiple_questions prompt then 3 else 0) +
  (if qc_has_long_context prompt then 4 else 0) +
  (if qc_has_file_references prompt history then 4 else 0) +
  (if qc_has_list_request prompt then 2 else 0) +
  (if qc_has_analysis_request prompt then 3 else 0) +
  (if qc_has_research_request prompt then 4 else 0) +
  (if qc_has_multiple_parts prompt then 3 else 0)

/-- The indicator flags returned in the analysis dict (the source omits
`multiple_parts` from the dict although it feeds the score). -/
structure QCIndicators where
  multiple_questions : Bool
  long_context : Bool
  file_references : Bool
  list_request : Bool
  analysis_request : Bool
  research_request : Bool
deriving DecidableEq, Repr

/-- The dict returned by `QueryConductor.analyze_query_complexity`.
`estimated_tokens` stands in for `int(len(prompt.split()) * 1.3)`;
nothing verified below depends on its value. -/
structure QCAnalysis where
  complexity : String
  estimated_tokens : Nat
  requires_breakdown : Bool
  recommended_strategy : String
  complexity_score : Nat
  indicators : QCIndicators
deriving DecidableEq, Repr

/-- The score-to-tier cutoffs of `analyze_query_complexity`. -/
def qc_complexity (score : Nat) : String :=
  if score ≥ 4 then "multi_faceted"
  else if score ≥ 2 then "complex"
  else if score ≥ 1 then "moderate"
  else "simple"

/-- `requires_breakdown` as set alongside the tier. -/
def qc_requires_breakdown (score : Nat) : Bool :=
  if score ≥ 4 then true
  else if score ≥ 2 then true
  else false

/-- The tier-to-strategy recommendation. -/
def qc_strategy (complexity : String) : String :=
  if complexity == "multi_faceted" then "orchestrated_breakdown"
  else if complexity == "complex" then "power_duo"
  else if complexity == "moderate" then "gemini_only"
  else "fastest"

/-- `QueryConductor.analyze_query_complexity`. -/
def analyze_query_complexity (prompt : String) (history : List Msg) : QCAnalysis :=
  let score := qc_score prompt history
  { complexity := qc_complexity score,
    estimated_tokens := pyWordCount prompt * 13 / 10,
    requires_breakdown := qc_requires_breakdown score,
    recommended_strategy := qc_strategy (qc_complexity score),
    complexity_score := score,
    indicators :=
      { multiple_questions := qc_has_multiple_questions prompt,
        long_context := qc_has_long_context prompt,
        file_references := qc_has_file_references prompt history,
        list_request := qc_has_list_request prompt,
        analysis_request := qc_has_analysis_request prompt,
        research_request := qc_has_research_request prompt } }

/-- The decomposition instruction `break_down_query` sends to Gemini. -/
def breakdown_prompt (prompt : String) : String :=
  "You are the Query Conductor - an expert at analyzing complex questions and breaking them into manageable sub-tasks.\n\nORIGINAL QUERY:\n"
    ++ prompt ++
    "\n\nTASK: Break this query into 3-7 specific sub-tasks that can be tackled sequentially or in parallel.\n\nFor each sub-task, specify:\n1. **Task Description**: What needs to be done\n2. **Priority**: 1 (critical) to 5 (nice to have)\n3. **Best LLM**: Which AI is best suited:\n   - gemini: General intelligence, reasoning, synthesis\n   - claude: Legal/contract analysis, writing, creative tasks\n   - deepseek: Deep analytical reasoning, cost-effective thinking\n   - openai: Quick responses, general tasks\n4. **Dependencies**: Which tasks must complete first (if any)\n5. **Specific Prompt**: The exact question to ask that LLM\n\nReturn ONLY valid JSON in this format:\n\x7b\n  \"sub_tasks\": [\n    \x7b\n      \"task\": \"Task description\",\n      \"priority\": 1,\n      \"best_llm\": \"gemini\",\n      \"depends_on\": [],\n      \"prompt\": \"Specific question for this task\"\n    \x7d\n  ],\n  \"execution_strategy\": \"sequential\" or \"parallel\",\n  \"estimated_time\": \"estimated completion time\"\n\x7d\n\nJSON Response:"

/-- The hard-coded fallback decomposition of `break_down_query`. -/
def fallbackBreakdown (prompt : String) : Json :=
  .obj [("sub_tasks", .arr [.obj
          [("task", .str "Full query processing"),
           ("priority", .num 1),
           ("best_llm", .str "gemini"),
           ("depends_on", .arr []),
           ("prompt", .str prompt)]]),
        ("execution_strategy", .str "sequential"),
        ("estimated_time", .str "1-2 minutes"),
        ("fallback", .bool true)]

/-- The markdown code-fence stripping of `break_down_query`
(`json_str.split('```')[1]`, then dropping a leading `json` tag; the
index can in principle raise `IndexError`, though a string that starts
with the fence always splits into at least two parts). -/
def stripFences (json_str : String) : Except PyExc String :=
  if pyStarts json_str "```" then
    match (json_str.splitOn "```").get? 1 with
    | some s => .ok (if pyStarts s "json" then (⟨s.data.drop 4⟩ : String) else s)
    | none => .error (.indexError "list index out of range")
  else .ok json_str

/-- The `try` body of `QueryConductor.break_down_query`: query Gemini,
strip markdown code fences, `json.loads`, and touch
`len(breakdown_data['sub_tasks'])` (the success log line). -/
def break_down_query_raw (o : OrchIface) (prompt : String) : Except PyExc Json := do
  let r ← o.query_gemini (breakdown_prompt prompt) []
  let json_str ← stripFences (pyStrip r.1)
  let breakdown_data ← jsonLoads (pyStrip json_str)
  let st ← pyGetItem breakdown_data "sub_tasks"
  let _ ← pyLen st
  pure breakdown_data

/-- `QueryConductor.break_down_query`: any exception from the body is
absorbed into the fallback decomposition.  (The unused
`conversation_history` parameter of the source is dropped.) -/
def break_down_query (o : OrchIface) (prompt : String) : Json :=
  match break_down_query_raw o prompt with
  | .ok v => v
  | .error _ => fallbackBreakdown prompt

/-- One entry of `sub_task_results`. -/
structure SubResult where
  task : Json
  llm_used : Json
  response : String
  metadata : Meta
  priority : Json

/-- One iteration of the sub-task execution loop of
`execute_orchestrated_breakdown` (lines 246–284).  The progress log line
evaluates `sub_task['task'][:60]` *outside* the per-task `try`, so its
exceptions propagate; inside the `try`, a raising query call is absorbed
into a failure-note result. -/
def subTaskStep (o : OrchIface) (history : List Msg) (sub_task : Json) :
    Except PyExc SubResult := do
  let taskVal ← pyGetItem sub_task "task"
  let _ ← pySliceTo taskVal 60
  let llmJ ← pyGet sub_task "best_llm" (.str "gemini")
  let task_promptJ ← pyGet sub_task "prompt" taskVal
  let priorityJ ← pyGet sub_task "priority" (.num 3)
  let task_prompt := pyStr task_promptJ
  let queryRes :=
    if llmJ == Json.str "gemini" then o.query_gemini task_prompt history
    else if llmJ == Json.str "claude" then o.query_claude task_prompt history
    else if llmJ == Json.str "deepseek" then o.query_deepseek task_prompt history
    else if llmJ == Json.str "openai" then o.query_openai task_prompt history
    else o.query_gemini task_prompt history
  match queryRes with
  | .ok r =>
    pure { task := taskVal, llm_used := llmJ, response := r.1, metadata := r.2,
           priority := priorityJ }
  | .error e =>
    pure { task := taskVal, llm_used := llmJ, response := "Error: " ++ e.msg,
           metadata := { error := some e.msg }, priority := priorityJ }

/-- The sub-task execution loop. -/
def runSubTasks (o : OrchIface) (history : List Msg) : List Json →
    Except PyExc (List SubResult)
  | [] => .ok []
  | t :: ts => do
    let r ← subTaskStep o history t
    let rs ← runSubTasks o history ts
    pure (r :: rs)

/-- The synthesis instruction built from the sub-task results. -/
def qcSynthesisPrompt (prompt : String) (results : List SubResult) : String :=
  let header :=
    "You are the Query Conductor - synthesizing results from multiple specialized AI analyses.\n\nORIGINAL QUESTION:\n"
      ++ prompt ++ "\n\nSUB-TASK RESULTS:\n"
  let blocks := (results.enum).foldl (fun acc ir =>
    acc ++ "\n\n**Task " ++ toString (ir.1 + 1) ++ "** (" ++ pyUpper (pyStr ir.2.llm_used)
      ++ "): " ++ pyStr ir.2.task ++ "\n" ++ "Response: " ++ ir.2.response ++ "\n") ""
  let footer :=
    "\n\nTASK: Create a comprehensive, well-organized final response that:\n1. Directly answers the original question\n2. Integrates insights from all sub-task results\n3. Organizes information logically\n4. Provides actionable recommendations\n5. Is clear and easy to understand\n\nFinal Response:"
  header ++ blocks ++ footer

/-- The result dicts `conduct_query` can return: the orchestrator's, or
the seven-key `orchestrated_breakdown` dict. -/
inductive QCResult where
  | orch (r : OrchResult)
  | orchestrated (complexity_analysis : QCAnalysis) (breakdown_data : Json)
      (sub_task_results : List SubResult) (final_response : String) (metadata : Meta)

/-- `QueryConductor.execute_orchestrated_breakdown`. -/
def execute_orchestrated_breakdown (o : OrchIface) (prompt : String)
    (history : List Msg) : Except PyExc QCResult := do
  let analysis := analyze_query_complexity prompt history
  if !analysis.requires_breakdown then
    (o.orchestrate_response prompt history analysis.recommended_strategy).map .orch
  else do
    let breakdown := break_down_query o prompt
    let fb ← pyGet breakdown "fallback" Json.null
    if pyTruthy fb then
      (o.orchestrate_response prompt history "power_duo").map .orch
    else do
      let st ← pyGetItem breakdown "sub_tasks"
      let _ ← pyLen st
      let tasks ← pyIter st
      let results ← runSubTasks o history tasks
      let synthesis_prompt := qcSynthesisPrompt prompt results
      match o.query_gemini synthesis_prompt [] with
      | .ok f => pure (.orchestrated analysis breakdown results f.1 f.2)
      | .error _ =>
        let final := results.foldl (fun acc r =>
          acc ++ "## " ++ pyStr r.task ++ "\n" ++ r.response ++ "\n\n")
          "# Analysis Results\n\n"
        pure (.orchestrated analysis breakdown results final
          { error := some "synthesis_failed", fallback := some "concat" })

/-- `QueryConductor.conduct_query` — the conductor entry point. -/
def conduct_query (o : OrchIface) (prompt : String) (history : List Msg)
    (force_mode : Option String) : Except PyExc QCResult :=
  match force_mode with
  | some m => (o.orchestrate_response prompt history m).map .orch
  | none =>
    let analysis := analyze_query_complexity prompt history
    if analysis.requires_breakdown then
      execute_orchestrated_breakdown o prompt history
    else
      (o.orchestrate_response prompt history analysis.recommended_strategy).map .orch

/-! ### `brain_chat/smart_conductor.py` — `SmartConductor._analyze_complexity` -/

def sc_has_multiple_questions (prompt : String) : Bool := pyCount prompt '?' > 1

def sc_has_numbered_list (prompt : String) : Bool :=
  (List.range' 1 9).any fun i =>
    pyIn (toString i ++ ")") prompt || pyIn (toString i ++ ".") prompt

def sc_has_long_context (prompt : String) : Bool := pyWordCount prompt > 300

def sc_has_legal_keywords (prompt : String) : Bool :=
  ["lawsuit", "legal", "case", "law firm", "attorney", "contract",
   "litigation"].any fun w => pyIn w (pyLower prompt)

def sc_has_analysis_request (prompt : String) : Bool :=
  ["analyze", "review", "examine", "assess", "evaluate", "identify",
   "determine"].any fun w => pyIn w (pyLower prompt)

def sc_has_multiple_parts (prompt : String) : Bool :=
  ["then", "also", "additionally", "furthermore", "based on",
   "after that"].any fun w => pyIn w (pyLower prompt)

def sc_has_file_references (prompt : String) : Bool :=
  ["uploaded", "attached", "file", "document", "summary",
   "case files"].any fun w => pyIn w (pyLower prompt)

def sc_score (prompt : String) : Nat :=
  (if sc_has_multiple_questions prompt then 2 else 0) +
  (if sc_has_numbered_list prompt then 2 else 0) +
  (if sc_has_long_context prompt then 3 else 0) +
  (if sc_has_legal_keywords prompt then 2 else 0) +
  (if sc_has_analysis_request prompt then 1 else 0) +
  (if sc_has_multiple_parts prompt then 2 else 0) +
  (if sc_has_file_references prompt then 3 else 0)

/-- `SmartConductor._analyze_complexity` (level and score; the indicator
dict repeats the flag functions above verbatim). -/
def sc_level (prompt : String) : String :=
  if sc_score prompt ≥ 8 then "multi_faceted"
  else if sc_score prompt ≥ 5 then "complex"
  else if sc_score prompt ≥ 2 then "moderate"
  else "simple"

/-! ### `brain_chat/bulletproof_conductor.py` -/

def bp_has_multiple_parts (prompt : String) : Bool :=
  (List.range' 1 9).any fun i => pyIn (toString i) prompt

def bp_has_legal (prompt : String) : Bool :=
  ["legal", "law", "case", "lawsuit", "attorney"].any fun w => pyIn w (pyLower prompt)

def bp_is_long (prompt : String) : Bool := pyWordCount prompt > 200

/-- The analysis dict of `BulletproofConductor._quick_analysis`. -/
structure BPAnalysis where
  level : String
  parts : Nat
  word_count : Nat
deriving DecidableEq, Repr

/-- `BulletproofConductor._quick_analysis` (`word_count` and
`question_count` written out in place of the source's two locals). -/
def quick_analysis (prompt : String) : BPAnalysis :=
  if pyCount prompt '?' ≥ 5 || (bp_has_multiple_parts prompt && bp_is_long prompt) then
    { level := "multi_faceted", parts := max (pyCount prompt '?') 5,
      word_count := pyWordCount prompt }
  else if pyCount prompt '?' ≥ 3 || (bp_has_legal prompt && bp_is_long prompt) then
    { level := "complex", parts := max (pyCount prompt '?') 3,
      word_count := pyWordCount prompt }
  else if pyCount prompt '?' ≥ 2 || pyWordCount prompt > 100 then
    { level := "moderate", parts := 2, word_count := pyWordCount prompt }
  else
    { level := "simple", parts := 1, word_count := pyWordCount prompt }

/-- One entry of the `results` list `conduct_streaming` accumulates. -/
structure BPTaskResult where
  task : String
  result : String
  status : String
deriving DecidableEq, Repr

/-- `json.dumps(results, indent=2)` for the synthesis instruction (the
rendering only feeds prompt text handed to the oracle). -/
def bpDump (results : List BPTaskResult) : String :=
  "[" ++ joinWith ", "
    (results.map fun r =>
      "\x7b\"task\": \"" ++ r.task ++ "\", \"result\": \"" ++ r.result
        ++ "\", \"status\": \"" ++ r.status ++ "\"\x7d") ++ "]"

/-- The synthesis instruction of `BulletproofConductor._synthesize_results`. -/
def bpSynthesisPrompt (original_prompt : String) (results : List BPTaskResult) : String :=
  "Synthesize these task results into a comprehensive, well-structured response:\n\nOriginal Question: "
    ++ original_prompt ++ "\n\nTask Results:\n" ++ bpDump results ++
    "\n\nProvide a complete, professional response that integrates all successful results. Use clear headings and formatting."

/-- `BulletproofConductor._synthesize_results`: the Gemini reply is
returned verbatim (empty or not); only an *exception* from the call is
absorbed into the labeled concatenation of successful results. -/
def synthesize_results (o : OrchIface) (original_prompt : String)
    (results : List BPTaskResult) : String :=
  match o.query_gemini (bpSynthesisPrompt original_prompt results) [] with
  | .ok r => r.1
  | .error _ =>
    let parts := (results.filter fun r => r.status == "success").map fun r =>
      "## " ++ r.task ++ "\n\n" ++ r.result ++ "\n"
    if parts.isEmpty then "Unable to generate complete response."
    else joinWith "\n" parts

/-! ### Concrete stubs and inputs used by the witnesses and
counterexamples -/

/-- A stubbed orchestrator whose every provider method returns `reply`
(the fully-stubbed-provider scenario of the specification). -/
def echoIface (reply : String) : OrchIface where
  query_gemini := fun _ _ => .ok (reply, {})
  query_claude := fun _ _ => .ok (reply, {})
  query_deepseek := fun _ _ => .ok (reply, {})
  query_openai := fun _ _ => .ok (reply, {})
  orchestrate_response := fun _ _ _ => .ok (.parallel [])

/-- A stubbed orchestrator whose every provider method raises. -/
def errorIface : OrchIface where
  query_gemini := fun _ _ => .error (.other "stub failure")
  query_claude := fun _ _ => .error (.other "stub failure")
  query_deepseek := fun _ _ => .error (.other "stub failure")
  query_openai := fun _ _ => .error (.other "stub failure")
  orchestrate_response := fun _ _ _ => .error (.other "stub failure")

/-- A backend on which every raw provider call succeeds. -/
def stubBe : ProviderBackend where
  gemini_ok := true
  openai_key := true
  claude_key := true
  hf_key := true
  geminiCall := fun _ _ => .ok { text := "gtext", ms := 5, total_tokens := 7 }
  openaiCall := fun _ => .ok { text := "otext", ms := 6, total_tokens := 8 }
  claudeCall := fun _ => .ok { text := "ctext", ms := 7 }
  deepseekCall := fun _ => .ok { text := "dtext", ms := 8 }
  grokCall := fun _ => .ok { text := "ktext", ms := 9 }
  hfCall := fun _ => .ok { text := "htext", ms := 10 }

/-- A backend on which every raw provider call raises. -/
def failBe : ProviderBackend where
  gemini_ok := true
  openai_key := true
  claude_key := true
  hf_key := true
  geminiCall := fun _ _ => .error (.other "boom")
  openaiCall := fun _ => .error (.other "boom")
  claudeCall := fun _ => .error (.other "boom")
  deepseekCall := fun _ => .error (.other "boom")
  grokCall := fun _ => .error (.other "boom")
  hfCall := fun _ => .error (.other "boom")

/-- A long prompt with exactly two question marks, above every variant's
long-context threshold, free of digits and of every analyzer keyword. -/
def longTwoQuestionPrompt : String :=
  joinWith " " ("why? how?" :: List.replicate 201 "w")

/-- A long prompt with three question marks, above every variant's
long-context threshold. -/
def longThreeQuestionPrompt : String :=
  joinWith " " ("a? b? c?" :: List.replicate 302 "w")

/-! ## Shared helper lemmas -/

/-- Inversion for a successful `Except` bind. -/
theorem except_bind_ok {α β : Type} {e : Except PyExc α} {f : α → Except PyExc β} {b : β}
    (h : (e >>= f) = .ok b) : ∃ a, e = .ok a ∧ f a = .ok b := by
  cases e with
  | ok a => exact ⟨a, rfl, h⟩
  | error _ => simp [Bind.bind, Except.bind] at h

/-- `.get` on a dict never raises. -/
theorem pyGet_obj_ok (fs : List (String × Json)) (k : String) (d : Json) :
    ∃ x, pyGet (.obj fs) k d = .ok x := by
  cases h : lookupField k fs with
  | some x => exact ⟨x, by simp [pyGet, h]⟩
  | none => exact ⟨d, by simp [pyGet, h]⟩

/-- A string whose character list is non-empty is not the empty string. -/
theorem str_ne_empty_of_data {s : String} (h : s.data ≠ []) : s ≠ "" := by
  intro he
  exact h (by rw [he])

/-- Appending preserves non-emptiness of the character list. -/
theorem append_data_ne {a : String} (b : String) (h : a.data ≠ []) :
    (a ++ b).data ≠ [] := by
  rw [String.data_append]
  intro hh
  exact h (List.append_eq_nil.mp hh).1

/-- `sep.join` of a list with a non-empty head is non-empty. -/
theorem joinWith_cons_ne_empty (sep x : String) (xs : List String)
    (hx : x.data ≠ []) : joinWith sep (x :: xs) ≠ "" := by
  cases xs with
  | nil => exact str_ne_empty_of_data hx
  | cons y ys =>
    have : (x ++ sep ++ joinWith sep (y :: ys)).data ≠ [] :=
      append_data_ne _ (append_data_ne _ hx)
    exact str_ne_empty_of_data this

/-! ## Claims -/

/-- C1.  The claim states that `conduct_query` never lets an exception
propagate for any prompt, history and forced mode.  The code violates it:
with the real `LLMOrchestrator` behind the conductor — whatever the
backends do — forcing the `power_duo` mode (likewise reaching it via the
decomposition fall-back path) raises `NameError` on the undefined
`original_prompt` of the synthesis f-string, which no handler in
`conduct_query` catches. -/
theorem conduct_query_forced_power_duo_raises
    (be : ProviderBackend) (prompt : String) (history : List Msg) :
    conduct_query (orchestratorIface be) prompt history (some "power_duo") =
      .error (.nameError "original_prompt") := rfl

/-- C2.  In every run, `orchestrate_response` in `power_duo` mode raises
`NameError` on `original_prompt` after the Gemini and DeepSeek calls (so
the mode never produces a result value), and the `QueryConductor` analyzer
recommends exactly this strategy for every prompt it rates tier
`complex`. -/
theorem power_duo_name_error_and_complex_recommends_power_duo :
    (∀ (be : ProviderBackend) (prompt : String) (history : List Msg),
      orchestrate_response be prompt history "power_duo" =
        .error (.nameError "original_prompt")) ∧
    (∀ (prompt : String) (history : List Msg),
      (analyze_query_complexity prompt history).complexity = "complex" →
      (analyze_query_complexity prompt history).recommended_strategy = "power_duo") := by
  refine ⟨fun _ _ _ => rfl, fun prompt history hc => ?_⟩
  have hstrat : (analyze_query_complexity prompt history).recommended_strategy
      = qc_strategy (analyze_query_complexity prompt history).complexity := rfl
  rw [hstrat, hc]
  rfl

/-- C2 witness: a concrete all-providers-stubbed run of the `power_duo`
mode, and a concrete prompt rated `complex` whose recommendation is
`power_duo`. -/
theorem power_duo_name_error_witness :
    orchestrate_response stubBe "Hello" [] "power_duo" =
      .error (.nameError "original_prompt") ∧
    (analyze_query_complexity "analyze this" []).complexity = "complex" ∧
    (analyze_query_complexity "analyze this" []).recommended_strategy = "power_duo" :=
  ⟨power_duo_name_error_and_complex_recommends_power_duo.1 stubBe "Hello" [],
   by decide,
   power_duo_name_error_and_complex_recommends_power_duo.2 "analyze this" [] (by decide)⟩

/-- C3 counterexample.  The claim says decomposition always yields at
least one task.  A well-formed LLM reply whose JSON carries an empty
`sub_tasks` array is accepted as-is: the result is not the fallback (no
`fallback` key) and its task list is empty. -/
theorem break_down_query_empty_subtasks_counterexample :
    pyGetItem (break_down_query (echoIface "\x7b\"sub_tasks\": []\x7d") "list the things")
        "sub_tasks" = .ok (.arr []) ∧
    pyGet (break_down_query (echoIface "\x7b\"sub_tasks\": []\x7d") "list the things")
        "fallback" Json.null = .ok Json.null := ⟨rfl, rfl⟩

/-- C3 (amended).  `break_down_query` never raises — every failure of its
body yields the hard-coded fallback, which carries exactly one task — and
any non-fallback result survived the `sub_tasks` access and `len` of the
body; but the surviving task list may have any length, including zero. -/
theorem break_down_query_absorbs_failures (o : OrchIface) (prompt : String) :
    (break_down_query o prompt = fallbackBreakdown prompt ∨
      ∃ st n, pyGetItem (break_down_query o prompt) "sub_tasks" = .ok st ∧
        pyLen st = .ok n) ∧
    (∃ t, pyGetItem (fallbackBreakdown prompt) "sub_tasks" = .ok (.arr [t])) := by
  constructor
  · unfold break_down_query
    cases hraw : break_down_query_raw o prompt with
    | error _ => exact .inl rfl
    | ok v =>
      refine .inr ?_
      unfold break_down_query_raw at hraw
      obtain ⟨r, -, hraw⟩ := except_bind_ok hraw
      obtain ⟨js, -, hraw⟩ := except_bind_ok hraw
      obtain ⟨bd, -, hraw⟩ := except_bind_ok hraw
      obtain ⟨st, hst, hraw⟩ := except_bind_ok hraw
      obtain ⟨n, hn, hraw⟩ := except_bind_ok hraw
      have hbd : bd = v := by
        simpa [Pure.pure, Except.pure] using hraw
      exact ⟨st, n, hbd ▸ hst, hn⟩
  · exact ⟨_, rfl⟩

/-- A sub-task dict with a string `task` field survives one iteration of
the execution loop: everything the iteration evaluates outside its `try`
succeeds, and the `try` absorbs a raising query call into a
failure-note result. -/
theorem subTaskStep_ok (o : OrchIface) (history : List Msg) (t : Json)
    (hs : ∃ s, pyGetItem t "task" = .ok (.str s)) :
    ∃ r, subTaskStep o history t = .ok r := by
  obtain ⟨s, hget⟩ := hs
  cases t with
  | null => simp [pyGetItem] at hget
  | bool b => simp [pyGetItem] at hget
  | num n => simp [pyGetItem] at hget
  | str s' => simp [pyGetItem] at hget
  | arr xs => simp [pyGetItem] at hget
  | obj fs =>
    obtain ⟨x1, e1⟩ := pyGet_obj_ok fs "best_llm" (.str "gemini")
    obtain ⟨x2, e2⟩ := pyGet_obj_ok fs "prompt" (.str s)
    obtain ⟨x3, e3⟩ := pyGet_obj_ok fs "priority" (.num 3)
    simp only [subTaskStep, hget, e1, e2, e3, pySliceTo, Bind.bind, Except.bind]
    cases hq : (if x1 == Json.str "gemini" then o.query_gemini (pyStr x2) history
      else if x1 == Json.str "claude" then o.query_claude (pyStr x2) history
      else if x1 == Json.str "deepseek" then o.query_deepseek (pyStr x2) history
      else if x1 == Json.str "openai" then o.query_openai (pyStr x2) history
      else o.query_gemini (pyStr x2) history) with
    | ok v => exact ⟨_, rfl⟩
    | error e => exact ⟨_, rfl⟩

/-- C4 counterexample.  The claim quantifies over every decomposition
output.  Decomposition accepts the well-formed JSON reply
`\x7b"sub_tasks": [\x7b\x7d, \x7b"task": "b"\x7d]\x7d` (two sub-tasks, the
first an empty dict); the execution loop then dereferences
`sub_task['task']` in its progress log *outside* the per-task `try`, so
the first task raises `KeyError`, zero results are produced, and the
second task is never executed. -/
theorem execute_breakdown_aborts_counterexample :
    execute_orchestrated_breakdown
        (echoIface "\x7b\"sub_tasks\": [\x7b\x7d, \x7b\"task\": \"b\"\x7d]\x7d")
        "analyze this" [] = .error (.keyError "task") := rfl

/-- C4 (amended).  For sub-task lists whose entries each carry a string
`task` field — as the fallback decomposition and every well-formed reply
produce — the loop returns exactly one result per task, and a raising
query call in one iteration is absorbed there rather than aborting the
rest; an entry without such a field instead aborts the loop with an
uncaught exception (see the counterexample). -/
theorem runSubTasks_wellformed_returns_all (o : OrchIface) (history : List Msg) :
    ∀ tasks : List Json, (∀ t ∈ tasks, ∃ s, pyGetItem t "task" = .ok (.str s)) →
      ∃ rs, runSubTasks o history tasks = .ok rs ∧ rs.length = tasks.length := by
  intro tasks
  induction tasks with
  | nil => exact fun _ => ⟨[], rfl, rfl⟩
  | cons t ts ih =>
    intro hwf
    obtain ⟨r, hr⟩ := subTaskStep_ok o history t (hwf t (List.mem_cons_self t ts))
    obtain ⟨rs, hrs, hlen⟩ := ih (fun t' ht' => hwf t' (List.mem_cons_of_mem t ht'))
    refine ⟨r :: rs, ?_, by simp [hlen]⟩
    simp [runSubTasks, hr, hrs, Bind.bind, Except.bind, Pure.pure, Except.pure]

/-- C4 witness: a concrete well-formed one-task list executed against a
stub orchestrator yields exactly one result. -/
theorem runSubTasks_wellformed_witness :
    ∃ rs, runSubTasks (echoIface "x") [] [Json.obj [("task", Json.str "a")]] = .ok rs ∧
      rs.length = 1 :=
  runSubTasks_wellformed_returns_all (echoIface "x") [] [Json.obj [("task", Json.str "a")]]
    (by
      intro t ht
      simp only [List.mem_singleton] at ht
      exact ⟨"a", by rw [ht]; rfl⟩)

/-- C5 counterexample.  The claim says synthesis always returns non-empty
text given a successful sub-result, falling back on an empty LLM response.
But `_synthesize_results` only falls back on an *exception*: a synthesis
call that returns the empty string without raising is passed through
verbatim. -/
theorem synthesize_results_empty_counterexample :
    synthesize_results (echoIface "") "Q" [⟨"t", "r", "success"⟩] = "" := rfl

/-- C5 (amended).  When the synthesis call raises, `_synthesize_results`
falls back to the labeled concatenation of the successful results, which
is non-empty whenever at least one result is tagged success; an
empty-but-non-raising LLM response, however, is returned as-is (the
counterexample). -/
theorem synthesize_results_fallback_nonempty (o : OrchIface) (p : String)
    (rs : List BPTaskResult)
    (hfail : ∃ e, o.query_gemini (bpSynthesisPrompt p rs) [] = .error e)
    (hsucc : ∃ r ∈ rs, r.status = "success") :
    synthesize_results o p rs =
      joinWith "\n" ((rs.filter fun r => r.status == "success").map fun r =>
        "## " ++ r.task ++ "\n\n" ++ r.result ++ "\n") ∧
    synthesize_results o p rs ≠ "" := by
  obtain ⟨e, he⟩ := hfail
  obtain ⟨r, hmem, hstat⟩ := hsucc
  have hfilter : r ∈ rs.filter fun x => x.status == "success" :=
    List.mem_filter.mpr ⟨hmem, by simp [hstat]⟩
  cases hfl : rs.filter fun x => x.status == "success" with
  | nil => rw [hfl] at hfilter; cases hfilter
  | cons r0 rest =>
    have heq : synthesize_results o p rs =
        joinWith "\n" ((r0 :: rest).map fun x =>
          "## " ++ x.task ++ "\n\n" ++ x.result ++ "\n") := by
      simp [synthesize_results, he, hfl]
    refine ⟨heq, ?_⟩
    rw [heq]
    simp only [List.map_cons]
    exact joinWith_cons_ne_empty _ _ _
      (append_data_ne _ (append_data_ne _ (by simp)))

/-- C5 witness: a raising synthesis stub with one successful result
produces non-empty output. -/
theorem synthesize_results_fallback_witness :
    (∃ e, errorIface.query_gemini
        (bpSynthesisPrompt "Q" [⟨"t", "r", "success"⟩]) [] = .error e) ∧
    synthesize_results errorIface "Q" [⟨"t", "r", "success"⟩] ≠ "" :=
  ⟨⟨.other "stub failure", rfl⟩,
   (synthesize_results_fallback_nonempty errorIface "Q" [⟨"t", "r", "success"⟩]
      ⟨.other "stub failure", rfl⟩ ⟨⟨"t", "r", "success"⟩, by simp, rfl⟩).2⟩

set_option maxRecDepth 8000 in
/-- C6 counterexample.  The claim covers all three variants, instantiated
at "more than one question mark AND word count above the variant's
long-context threshold".  `BulletproofConductor._quick_analysis` rates a
digit-free, legal-keyword-free prompt with exactly two question marks and
more than 200 words as merely `moderate`. -/
theorem bulletproof_two_questions_long_moderate_counterexample :
    pyCount longTwoQuestionPrompt '?' = 2 ∧
    pyWordCount longTwoQuestionPrompt > 200 ∧
    (quick_analysis longTwoQuestionPrompt).level = "moderate" :=
  ⟨by decide, by decide, by decide⟩

/-- C6 (amended).  For prompts with more than one question mark and word
count above the long-context threshold, `QueryConductor` (threshold 200)
rates `multi_faceted` and `SmartConductor` (threshold 300) rates
`complex` or `multi_faceted`; `BulletproofConductor` reaches
`complex`/`multi_faceted` from question marks alone only at three or
more — two question marks plus length land on `moderate` (see the
counterexample). -/
theorem analyzers_high_weight_tiers (p : String) (h : List Msg) :
    (pyCount p '?' > 1 → pyWordCount p > 200 →
      (analyze_query_complexity p h).complexity = "multi_faceted") ∧
    (pyCount p '?' > 1 → pyWordCount p > 300 →
      sc_level p = "complex" ∨ sc_level p = "multi_faceted") ∧
    (pyCount p '?' ≥ 3 →
      (quick_analysis p).level = "complex" ∨
        (quick_analysis p).level = "multi_faceted") := by
  refine ⟨fun hq hw => ?_, fun hq hw => ?_, fun hq => ?_⟩
  · have h1 : qc_has_multiple_questions p = true := decide_eq_true hq
    have h2 : qc_has_long_context p = true := decide_eq_true hw
    have hscore : 4 ≤ qc_score p h := by
      unfold qc_score
      simp [h1, h2]
      split_ifs <;> omega
    show qc_complexity (qc_score p h) = "multi_faceted"
    unfold qc_complexity
    rw [if_pos hscore]
  · have h1 : sc_has_multiple_questions p = true := decide_eq_true hq
    have h2 : sc_has_long_context p = true := decide_eq_true hw
    have hscore : 5 ≤ sc_score p := by
      unfold sc_score
      simp [h1, h2]
      split_ifs <;> omega
    unfold sc_level
    split_ifs
    · exact .inr rfl
    · exact .inl rfl
  · unfold quick_analysis
    split_ifs with ha hb
    · exact .inr rfl
    · exact .inl rfl
    all_goals
      exfalso
      simp only [Bool.or_eq_true, decide_eq_true_eq] at hb
      exact hb (.inl hq)

set_option maxRecDepth 8000 in
/-- C6 witness: a three-question prompt of more than 300 words is rated
`multi_faceted` by `QueryConductor` and `complex`/`multi_faceted` by the
other two variants. -/
theorem analyzers_high_weight_tiers_witness :
    (analyze_query_complexity longThreeQuestionPrompt []).complexity = "multi_faceted" ∧
    (sc_level longThreeQuestionPrompt = "complex" ∨
      sc_level longThreeQuestionPrompt = "multi_faceted") ∧
    ((quick_analysis longThreeQuestionPrompt).level = "complex" ∨
      (quick_analysis longThreeQuestionPrompt).level = "multi_faceted") :=
  ⟨(analyzers_high_weight_tiers longThreeQuestionPrompt []).1 (by decide) (by decide),
   (analyzers_high_weight_tiers longThreeQuestionPrompt []).2.1 (by decide) (by decide),
   (analyzers_high_weight_tiers longThreeQuestionPrompt []).2.2 (by decide)⟩

/-- C7 counterexample.  A two-word prompt containing two question marks
and none of the analyzer keyword indicators is rated `complex`, not
`simple`, by `QueryConductor`: the question-mark indicator alone is worth
3 points. -/
theorem qc_two_questions_not_simple_counterexample :
    pyWordCount "Why? How?" = 2 ∧
    qc_file_kw "Why? How?" = false ∧
    qc_has_list_request "Why? How?" = false ∧
    qc_has_analysis_request "Why? How?" = false ∧
    qc_has_research_request "Why? How?" = false ∧
    qc_has_multiple_parts "Why? How?" = false ∧
    (analyze_query_complexity "Why? How?" []).complexity = "complex" := by
  decide

/-- C7 (amended).  Short keyword-free prompts are rated `simple` provided
additionally they have at most one question mark and no
numbered-list/digit markers, the conversation history is empty (it feeds
`QueryConductor`'s file-reference indicator), and — for
`BulletproofConductor` — at most 100 words. -/
theorem analyzers_simple_tier (p : String) (h : List Msg)
    (q1 : qc_has_multiple_questions p = false) (q2 : qc_has_long_context p = false)
    (q3 : qc_has_file_references p h = false) (q4 : qc_has_list_request p = false)
    (q5 : qc_has_analysis_request p = false) (q6 : qc_has_research_request p = false)
    (q7 : qc_has_multiple_parts p = false)
    (s1 : sc_has_multiple_questions p = false) (s2 : sc_has_numbered_list p = false)
    (s3 : sc_has_long_context p = false) (s4 : sc_has_legal_keywords p = false)
    (s5 : sc_has_analysis_request p = false) (s6 : sc_has_multiple_parts p = false)
    (s7 : sc_has_file_references p = false)
    (b1 : pyCount p '?' ≤ 1) (b2 : pyWordCount p ≤ 100) :
    (analyze_query_complexity p h).complexity = "simple" ∧
    (analyze_query_complexity p h).recommended_strategy = "fastest" ∧
    sc_level p = "simple" ∧
    (quick_analysis p).level = "simple" := by
  have hqs : qc_score p h = 0 := by
    simp [qc_score, q1, q2, q3, q4, q5, q6, q7]
  have hss : sc_score p = 0 := by
    simp [sc_score, s1, s2, s3, s4, s5, s6, s7]
  refine ⟨?_, ?_, ?_, ?_⟩
  · show qc_complexity (qc_score p h) = "simple"
    rw [hqs]
    rfl
  · show qc_strategy (qc_complexity (qc_score p h)) = "fastest"
    rw [hqs]
    rfl
  · unfold sc_level
    rw [hss]
    rfl
  · have hlong : bp_is_long p = false := decide_eq_false (by omega)
    have h5 : decide (pyCount p '?' ≥ 5) = false := decide_eq_false (by omega)
    have h3 : decide (pyCount p '?' ≥ 3) = false := decide_eq_false (by omega)
    have h2 : decide (pyCount p '?' ≥ 2) = false := decide_eq_false (by omega)
    have h100 : decide (pyWordCount p > 100) = false := decide_eq_false (by omega)
    simp [quick_analysis, hlong, h5, h3, h2, h100]

/-- C7 witness: the prompt `"hello"` with empty history is rated `simple`
by all three analyzers and routed to the `fastest` strategy. -/
theorem analyzers_simple_tier_witness :
    (analyze_query_complexity "hello" []).complexity = "simple" ∧
    (analyze_query_complexity "hello" []).recommended_strategy = "fastest" ∧
    sc_level "hello" = "simple" ∧
    (quick_analysis "hello").level = "simple" :=
  analyzers_simple_tier "hello" [] (by decide) (by decide) (by decide) (by decide)
    (by decide) (by decide) (by decide) (by decide) (by decide) (by decide) (by decide)
    (by decide) (by decide) (by decide) (by decide) (by decide)

/-- C8 counterexample.  The claim says the analysis is a function of the
prompt alone.  The same prompt with an empty versus a one-entry history
yields different tier, score, file-reference flag and strategy: a
non-empty history alone sets the file-reference indicator (weight 4). -/
theorem qc_analysis_history_dependence_counterexample :
    (analyze_query_complexity "hello" []).complexity = "simple" ∧
    (analyze_query_complexity "hello" [⟨"user", "hi"⟩]).complexity = "multi_faceted" ∧
    (analyze_query_complexity "hello" []).recommended_strategy = "fastest" ∧
    (analyze_query_complexity "hello" [⟨"user", "hi"⟩]).recommended_strategy =
      "orchestrated_breakdown" ∧
    (analyze_query_complexity "hello" []).complexity_score = 0 ∧
    (analyze_query_complexity "hello" [⟨"user", "hi"⟩]).complexity_score = 4 ∧
    (analyze_query_complexity "hello" []).indicators.file_references = false ∧
    (analyze_query_complexity "hello" [⟨"user", "hi"⟩]).indicators.file_references = true := by
  decide

/-- C8 (amended).  The analysis is deterministic in the prompt *and* the
history, and depends on the history only through its emptiness: histories
that are both empty or both non-empty give identical results. -/
theorem qc_analysis_depends_only_on_history_emptiness (p : String) (h1 h2 : List Msg)
    (he : h1.isEmpty = h2.isEmpty) :
    analyze_query_complexity p h1 = analyze_query_complexity p h2 := by
  have hf : qc_has_file_references p h1 = qc_has_file_references p h2 := by
    unfold qc_has_file_references
    rw [he]
  unfold analyze_query_complexity qc_score
  rw [hf]

/-- C8 witness: two different non-empty histories give identical
analyses. -/
theorem qc_analysis_history_emptiness_witness :
    analyze_query_complexity "hello" [⟨"user", "a"⟩] =
      analyze_query_complexity "hello" [⟨"assistant", "b"⟩, ⟨"user", "c"⟩] :=
  qc_analysis_depends_only_on_history_emptiness "hello" _ _ rfl

/-- C9.  The claim (from the spec data model) says a conversation history
is immutable once issued.  The adapters other than `query_gemini` execute
`messages = conversation_history or []` followed by an append of the new
user entry, so a *non-empty* caller list is mutated in place: after the
call it has gained `{"role": "user", "content": <prompt>}` (for DeepSeek,
the adapter's enhanced reasoning prompt).  An empty list is untouched
(`or []` builds a fresh list then). -/
theorem adapters_mutate_nonempty_history :
    (query_openai stubBe "Hello" [⟨"user", "hi"⟩]).2 =
      [⟨"user", "hi"⟩, ⟨"user", "Hello"⟩] ∧
    (query_claude stubBe "Hello" [⟨"user", "hi"⟩]).2 =
      [⟨"user", "hi"⟩, ⟨"user", "Hello"⟩] ∧
    (query_deepseek stubBe "Hello" [⟨"user", "hi"⟩]).2 =
      [⟨"user", "hi"⟩, ⟨"user", deepseek_reasoning_prompt "Hello"⟩] ∧
    (query_openai stubBe "Hello" [⟨"user", "hi"⟩]).2 ≠ [⟨"user", "hi"⟩] ∧
    (query_openai stubBe "Hello" []).2 = ([] : List Msg) :=
  ⟨rfl, rfl, rfl, by decide, rfl⟩

/-- C10.  In a run where every raw provider call fails inside its adapter
(generic exceptions whose rendered sentinels do not contain the phrase
`temporarily unavailable`), the multi-provider path of
`orchestrate_response` keeps every `"<Provider> Error: ..."` sentinel as a
valid entry (the validity check only tests emptiness and the prefixes
`Error:`/`<`), classifies all six as successful, skips the
`All AI models are currently unavailable.` fallback, and hands the
sentinels on — `parallel` returns them, `consensus` feeds them into
synthesis. -/
theorem error_sentinels_classified_successful
    (be : ProviderBackend) (prompt : String) (history : List Msg)
    (hg0 : be.gemini_ok = true) (ho0 : be.openai_key = true)
    (hc0 : be.claude_key = true) (hh0 : be.hf_key = true)
    (hg : ∀ p h, ∃ m, be.geminiCall p h = .error (.other m) ∧
      pyIn "temporarily unavailable" ("Gemini Error: " ++ m) = false)
    (hd : ∀ ms, ∃ m, be.deepseekCall ms = .error (.other m) ∧
      pyIn "temporarily unavailable" ("DeepSeek Error: " ++ m) = false)
    (hc : ∀ ms, ∃ e, be.claudeCall ms = .error e)
    (ho : ∀ ms, ∃ m, be.openaiCall ms = .error (.other m) ∧
      pyIn "temporarily unavailable" ("OpenAI Error: " ++ m) = false)
    (hk : ∀ ms, ∃ e, be.grokCall ms = .error e)
    (hh : ∀ ms, ∃ m, be.hfCall ms = .error (.other m) ∧
      pyIn "temporarily unavailable" ("HuggingFace Error: " ++ m) = false) :
    ∃ mg md mo mh, ∃ rs : List (String × Entry),
      rs = [("gemini", ⟨"Gemini Error: " ++ mg, { error := some mg }⟩),
         ("deepseek", ⟨"DeepSeek Error: " ++ md, { error := some md }⟩),
         ("claude", ⟨"Claude Error: All model variants unavailable",
            { error := some "All Claude models failed" }⟩),
         ("openai", ⟨"OpenAI Error: " ++ mo, { error := some mo }⟩),
         ("grok", ⟨"Grok Error: All model variants unavailable",
            { error := some "All Grok models failed" }⟩),
         ("huggingface", ⟨"HuggingFace Error: " ++ mh, { error := some mh }⟩)] ∧
      runProviderLoop be prompt history = rs ∧
      successfulResponses rs = rs ∧
      orchestrate_response be prompt history "parallel" = .ok (.parallel rs) ∧
      orchestrate_response be prompt history "consensus" =
        .ok (build_consensus be rs prompt) := by
  obtain ⟨mg, hmg, hgc⟩ := hg (gemini_enhanced_prompt prompt) (gemini_history history)
  have Eg : query_gemini be prompt history =
      (("Gemini Error: " ++ mg, { error := some mg }), history) := by
    simp [query_gemini, hg0, hmg, PyExc.msg]
  obtain ⟨md, hmd, hdc⟩ := hd (history ++ [⟨"user", deepseek_reasoning_prompt prompt⟩])
  have Ed : query_deepseek be prompt history =
      (("DeepSeek Error: " ++ md, { error := some md }),
        if history.isEmpty then history
        else history ++ [⟨"user", deepseek_reasoning_prompt prompt⟩]) := by
    simp [query_deepseek, hmd, PyExc.msg]
  set h2 : List Msg := if history.isEmpty then history
    else history ++ [⟨"user", deepseek_reasoning_prompt prompt⟩] with hh2
  obtain ⟨ec, hec⟩ := hc (h2 ++ [⟨"user", prompt⟩])
  have Ec : query_claude be prompt h2 =
      (("Claude Error: All model variants unavailable",
        { error := some "All Claude models failed" }),
        if h2.isEmpty then h2 else h2 ++ [⟨"user", prompt⟩]) := by
    simp [query_claude, hc0, hec]
  set h3 : List Msg := if h2.isEmpty then h2 else h2 ++ [⟨"user", prompt⟩] with hh3
  obtain ⟨mo, hmo, hoc⟩ := ho (h3 ++ [⟨"user", prompt⟩])
  have Eo : query_openai be prompt h3 =
      (("OpenAI Error: " ++ mo, { error := some mo }),
        if h3.isEmpty then h3 else h3 ++ [⟨"user", prompt⟩]) := by
    simp [query_openai, ho0, hmo, PyExc.msg]
  set h4 : List Msg := if h3.isEmpty then h3 else h3 ++ [⟨"user", prompt⟩] with hh4
  obtain ⟨ek, hek⟩ := hk (h4 ++ [⟨"user", prompt⟩])
  have Ek : query_grok be prompt h4 =
      (("Grok Error: All model variants unavailable",
        { error := some "All Grok models failed" }),
        if h4.isEmpty then h4 else h4 ++ [⟨"user", prompt⟩]) := by
    simp [query_grok, hek]
  set h5 : List Msg := if h4.isEmpty then h4 else h4 ++ [⟨"user", prompt⟩] with hh5
  obtain ⟨mh, hmh, hhc⟩ := hh (h5 ++ [⟨"user", prompt⟩])
  have Eh : query_huggingface be prompt h5 =
      (("HuggingFace Error: " ++ mh, { error := some mh }),
        if h5.isEmpty then h5 else h5 ++ [⟨"user", prompt⟩]) := by
    simp [query_huggingface, hh0, hmh, PyExc.msg]
  -- validation keeps every sentinel
  have Vg : validateEntry "gemini" ("Gemini Error: " ++ mg, { error := some mg }) =
      ⟨"Gemini Error: " ++ mg, { error := some mg }⟩ := by
    have e1 : (("Gemini Error: " ++ mg)).data.isEmpty = false := by
      rw [String.data_append]; rfl
    have e2 : pyStarts ("Gemini Error: " ++ mg) "Error:" = false := by
      unfold pyStarts; rw [String.data_append]; rfl
    have e3 : pyStarts ("Gemini Error: " ++ mg) "<" = false := by
      unfold pyStarts; rw [String.data_append]; rfl
    simp [validateEntry, e1, e2, e3]
  have Vd : validateEntry "deepseek" ("DeepSeek Error: " ++ md, { error := some md }) =
      ⟨"DeepSeek Error: " ++ md, { error := some md }⟩ := by
    have e1 : (("DeepSeek Error: " ++ md)).data.isEmpty = false := by
      rw [String.data_append]; rfl
    have e2 : pyStarts ("DeepSeek Error: " ++ md) "Error:" = false := by
      unfold pyStarts; rw [String.data_append]; rfl
    have e3 : pyStarts ("DeepSeek Error: " ++ md) "<" = false := by
      unfold pyStarts; rw [String.data_append]; rfl
    simp [validateEntry, e1, e2, e3]
  have Vc : validateEntry "claude" ("Claude Error: All model variants unavailable",
      { error := some "All Claude models failed" }) =
      ⟨"Claude Error: All model variants unavailable",
        { error := some "All Claude models failed" }⟩ := by decide
  have Vo : validateEntry "openai" ("OpenAI Error: " ++ mo, { error := some mo }) =
      ⟨"OpenAI Error: " ++ mo, { error := some mo }⟩ := by
    have e1 : (("OpenAI Error: " ++ mo)).data.isEmpty = false := by
      rw [String.data_append]; rfl
    have e2 : pyStarts ("OpenAI Error: " ++ mo) "Error:" = false := by
      unfold pyStarts; rw [String.data_append]; rfl
    have e3 : pyStarts ("OpenAI Error: " ++ mo) "<" = false := by
      unfold pyStarts; rw [String.data_append]; rfl
    simp [validateEntry, e1, e2, e3]
  have Vk : validateEntry "grok" ("Grok Error: All model variants unavailable",
      { error := some "All Grok models failed" }) =
      ⟨"Grok Error: All model variants unavailable",
        { error := some "All Grok models failed" }⟩ := by decide
  have Vh : validateEntry "huggingface" ("HuggingFace Error: " ++ mh, { error := some mh }) =
      ⟨"HuggingFace Error: " ++ mh, { error := some mh }⟩ := by
    have e1 : (("HuggingFace Error: " ++ mh)).data.isEmpty = false := by
      rw [String.data_append]; rfl
    have e2 : pyStarts ("HuggingFace Error: " ++ mh) "Error:" = false := by
      unfold pyStarts; rw [String.data_append]; rfl
    have e3 : pyStarts ("HuggingFace Error: " ++ mh) "<" = false := by
      unfold pyStarts; rw [String.data_append]; rfl
    simp [validateEntry, e1, e2, e3]
  have ER : runProviderLoop be prompt history =
      [("gemini", ⟨"Gemini Error: " ++ mg, { error := some mg }⟩),
       ("deepseek", ⟨"DeepSeek Error: " ++ md, { error := some md }⟩),
       ("claude", ⟨"Claude Error: All model variants unavailable",
          { error := some "All Claude models failed" }⟩),
       ("openai", ⟨"OpenAI Error: " ++ mo, { error := some mo }⟩),
       ("grok", ⟨"Grok Error: All model variants unavailable",
          { error := some "All Grok models failed" }⟩),
       ("huggingface", ⟨"HuggingFace Error: " ++ mh, { error := some mh }⟩)] := by
    rw [runProviderLoop]
    rw [Eg]
    simp only []
    rw [Ed]
    simp only []
    rw [Ec]
    simp only []
    rw [Eo]
    simp only []
    rw [Ek]
    simp only []
    rw [Eh]
    simp only [Vg, Vd, Vc, Vo, Vk, Vh]
  -- every sentinel passes the successful-responses filter
  have Fg : pyStarts ("Gemini Error: " ++ mg) "Error:" = false := by
    unfold pyStarts; rw [String.data_append]; rfl
  have Fd : pyStarts ("DeepSeek Error: " ++ md) "Error:" = false := by
    unfold pyStarts; rw [String.data_append]; rfl
  have Fo : pyStarts ("OpenAI Error: " ++ mo) "Error:" = false := by
    unfold pyStarts; rw [String.data_append]; rfl
  have Fh : pyStarts ("HuggingFace Error: " ++ mh) "Error:" = false := by
    unfold pyStarts; rw [String.data_append]; rfl
  have ES : successfulResponses
      [("gemini", (⟨"Gemini Error: " ++ mg, { error := some mg }⟩ : Entry)),
       ("deepseek", ⟨"DeepSeek Error: " ++ md, { error := some md }⟩),
       ("claude", ⟨"Claude Error: All model variants unavailable",
          { error := some "All Claude models failed" }⟩),
       ("openai", ⟨"OpenAI Error: " ++ mo, { error := some mo }⟩),
       ("grok", ⟨"Grok Error: All model variants unavailable",
          { error := some "All Grok models failed" }⟩),
       ("huggingface", ⟨"HuggingFace Error: " ++ mh, { error := some mh }⟩)] =
      [("gemini", ⟨"Gemini Error: " ++ mg, { error := some mg }⟩),
       ("deepseek", ⟨"DeepSeek Error: " ++ md, { error := some md }⟩),
       ("claude", ⟨"Claude Error: All model variants unavailable",
          { error := some "All Claude models failed" }⟩),
       ("openai", ⟨"OpenAI Error: " ++ mo, { error := some mo }⟩),
       ("grok", ⟨"Grok Error: All model variants unavailable",
          { error := some "All Grok models failed" }⟩),
       ("huggingface", ⟨"HuggingFace Error: " ++ mh, { error := some mh }⟩)] := by
    have Pc1 : pyStarts "Claude Error: All model variants unavailable" "Error:" = false := by
      decide
    have Pc2 : pyIn "temporarily unavailable"
        "Claude Error: All model variants unavailable" = false := by decide
    have Pk1 : pyStarts "Grok Error: All model variants unavailable" "Error:" = false := by
      decide
    have Pk2 : pyIn "temporarily unavailable"
        "Grok Error: All model variants unavailable" = false := by decide
    simp [successfulResponses, List.filter, Fg, Fd, Fo, Fh, hgc, hdc, hoc, hhc,
      Pc1, Pc2, Pk1, Pk2]
  refine ⟨mg, md, mo, mh, _, rfl, ER, ES, ?_, ?_⟩
  · rw [orchestrate_response]
    simp only [ER, ES]
    simp
  · rw [orchestrate_response]
    simp only [ER, ES]
    simp


/-- C10 witness: the all-raising backend `failBe` realizes the premises;
all six sentinel entries are classified successful and returned. -/
theorem error_sentinels_witness :
    ∃ mg md mo mh, ∃ rs : List (String × Entry),
      rs = [("gemini", ⟨"Gemini Error: " ++ mg, { error := some mg }⟩),
         ("deepseek", ⟨"DeepSeek Error: " ++ md, { error := some md }⟩),
         ("claude", ⟨"Claude Error: All model variants unavailable",
            { error := some "All Claude models failed" }⟩),
         ("openai", ⟨"OpenAI Error: " ++ mo, { error := some mo }⟩),
         ("grok", ⟨"Grok Error: All model variants unavailable",
            { error := some "All Grok models failed" }⟩),
         ("huggingface", ⟨"HuggingFace Error: " ++ mh, { error := some mh }⟩)] ∧
      runProviderLoop failBe "Q" [] = rs ∧
      successfulResponses rs = rs ∧
      orchestrate_response failBe "Q" [] "parallel" = .ok (.parallel rs) ∧
      orchestrate_response failBe "Q" [] "consensus" =
        .ok (build_consensus failBe rs "Q") :=
  error_sentinels_classified_successful failBe "Q" [] rfl rfl rfl rfl
    (fun _ _ => ⟨"boom", rfl, by decide⟩) (fun _ => ⟨"boom", rfl, by decide⟩)
    (fun _ => ⟨.other "boom", rfl⟩) (fun _ => ⟨"boom", rfl, by decide⟩)
    (fun _ => ⟨.other "boom", rfl⟩) (fun _ => ⟨"boom", rfl, by decide⟩)

end HollyHotBox
